import Mathlib

/-!
Shallow embedding of `src/waypoint_maker.cpp` (class `WaypointMaker`).

Modelling conventions:
* C++ `double` values are modelled as exact rationals (`ℚ`); floating-point
  rounding is not modelled.
* `atan2` is kept abstract: every definition that needs it takes a parameter
  `at2 : ℚ → ℚ → ℚ` standing for the C library `atan2(y, x)`.  Claims about
  the yaw computation are stated uniformly in `at2`, so they hold for the
  real `atan2` in particular.
* ROS publishing and file appending are modelled as event logs returned by
  the functions: each processing step returns the list of twists, CSV lines,
  markers and error-log messages it emitted.  `ROS_INFO` debug prints are not
  observable state and are not modelled; the `ROS_ERROR` on file-open failure
  is modelled because the spec's error-handling claims mention it.
* Whether `std::ofstream` succeeds in opening the CSV file is an input of the
  environment, modelled as a `Bool` (`fileOk`) per processing cycle.
* `joy_msg->buttons[2]` / `axes[3]` / `axes[0]` are unchecked accesses in the
  C++; they are modelled with `List.getD` and the theorems that talk about
  the accessed values carry the in-bounds hypotheses.
-/

/-- The part of `geometry_msgs::Pose` the program reads and writes:
position `x`, `y` and orientation quaternion components `z`, `w`
(the program never touches `position.z`, `orientation.x`, `orientation.y`). -/
structure Pose where
  position_x : ℚ
  position_y : ℚ
  orientation_z : ℚ
  orientation_w : ℚ
deriving DecidableEq

/-- `sensor_msgs::Joy`: a list of button states and a list of axis values. -/
structure Joy where
  buttons : List ℤ
  axes : List ℚ
deriving DecidableEq

/-- `geometry_msgs::Twist`; a freshly constructed message is all zero and the
callback then assigns `linear.x` and `angular.z`. -/
structure Twist where
  linear_x : ℚ
  linear_y : ℚ
  linear_z : ℚ
  angular_x : ℚ
  angular_y : ℚ
  angular_z : ℚ
deriving DecidableEq

/-- `visualization_msgs::Marker`, restricted to the fields the program sets
(the header stamp, a wall-clock time, is not modelled). -/
structure Marker where
  frame_id : String
  ns : String
  id : ℤ
  mtype : ℕ
  action : ℕ
  pose : Pose
  scale_x : ℚ
  scale_y : ℚ
  scale_z : ℚ
  color_r : ℚ
  color_g : ℚ
  color_b : ℚ
  color_a : ℚ
deriving DecidableEq

/-- `visualization_msgs::Marker::ARROW` message constant. -/
def ARROW : ℕ := 0

/-- `visualization_msgs::Marker::ADD` message constant. -/
def ADD : ℕ := 0

/-- The mutable member state of the `WaypointMaker` class:
`current_pose_`, `save_waypoint_` and `waypoint_id_`. -/
structure NodeState where
  current_pose_ : Pose
  save_waypoint_ : Bool
  waypoint_id_ : ℤ
deriving DecidableEq

/-- The hardcoded member `csv_file_path_`. -/
def csv_file_path_ : String :=
  "/home/yamaguchi-a/catkin_ws/src/waypoint_maker/csv/waypoints.csv"

/-- The constructor `WaypointMaker()`: `current_pose_` is zero-initialised and
then `position.x = 0`, `position.y = 0`, `orientation.z = 0`,
`orientation.w = 1` are assigned; `save_waypoint_ = false`;
`waypoint_id_ = 0`. -/
def initState : NodeState :=
  { current_pose_ := { position_x := 0, position_y := 0, orientation_z := 0, orientation_w := 1 }
    save_waypoint_ := false
    waypoint_id_ := 0 }

/-- The yaw computed in `saveWaypointToCSV`:
`atan2(2.0 * (pose.orientation.w * pose.orientation.z),
       1.0 - 2.0 * (pose.orientation.z * pose.orientation.z))`. -/
def yawOfPose (at2 : ℚ → ℚ → ℚ) (pose : Pose) : ℚ :=
  at2 (2 * (pose.orientation_w * pose.orientation_z))
    (1 - 2 * (pose.orientation_z * pose.orientation_z))

/-!
### Model of `std::ostream`'s default formatting of a `double`

`saveWaypointToCSV` writes the coordinates with `file << pose.position.x`,
which uses the stream's default floating-point output: precision 6, general
(`%g`-style) format — six significant digits, trailing zeros removed, fixed
notation for decimal exponents in `[-4, 5]` and scientific notation
otherwise.  The model below implements that format on exact rationals
(the value is treated as exact; `round` is Mathlib's round-half-up, tie
cases do not arise in any concrete value used here).
-/

/-- Decimal digit string of a natural number. -/
def natDigits (n : ℕ) : String := String.mk (Nat.toDigits 10 n)

/-- Drop trailing `'0'` characters. -/
def stripTrailZeros (s : String) : String :=
  String.mk (s.toList.reverse.dropWhile (fun c => c = '0')).reverse

/-- `10 ^ e` as a rational, for an integer exponent. -/
def qpow10 (e : ℤ) : ℚ :=
  if 0 ≤ e then ((10 : ℚ) ^ e.toNat) else 1 / ((10 : ℚ) ^ (-e).toNat)

/-- Fuel-bounded search: for `q ≥ 1`, the number of times `q` can be divided
by 10 while staying `≥ 1` (the decimal exponent of `q`). -/
def expUp : ℚ → ℕ → ℕ
  | _, 0 => 0
  | q, fuel + 1 => if q < 10 then 0 else expUp (q / 10) fuel + 1

/-- Fuel-bounded search: for `0 < q < 1`, the number of times `q` must be
multiplied by 10 to reach `≥ 1` (minus the decimal exponent of `q`). -/
def expDown : ℚ → ℕ → ℕ
  | _, 0 => 0
  | q, fuel + 1 => if 1 ≤ q then 0 else expDown (q * 10) fuel + 1

/-- Enough fuel for the exponent searches on `q`. -/
def log10Fuel (q : ℚ) : ℕ :=
  (Nat.toDigits 10 q.num.natAbs).length + (Nat.toDigits 10 q.den).length + 2

/-- Decimal exponent of a positive rational: the unique `e` with
`10 ^ e ≤ q < 10 ^ (e + 1)`. -/
def floorLog10 (q : ℚ) : ℤ :=
  if 1 ≤ q then (expUp q (log10Fuel q) : ℤ) else -(expDown q (log10Fuel q) : ℤ)

/-- Round a positive rational to six significant digits: returns the digit
block `m ∈ [10^5, 10^6)` and the decimal exponent `e`, so that the value is
approximately `m * 10 ^ (e - 5)`. -/
def sixSig (q : ℚ) : ℕ × ℤ :=
  let e := floorLog10 q
  let m := round (q * qpow10 (5 - e))
  if m = 1000000 then (100000, e + 1) else (m.toNat, e)

/-- Fixed-notation rendering of a six-digit block `m` with decimal exponent
`e ∈ [-4, 5]`, trailing zeros stripped. -/
def fmtFixed (m : ℕ) (e : ℤ) : String :=
  let ds := natDigits m
  if 0 ≤ e then
    let k := e.toNat + 1
    let ip := String.mk (ds.toList.take k)
    let fp := stripTrailZeros (String.mk (ds.toList.drop k))
    if fp = "" then ip else ip ++ "." ++ fp
  else
    let zeros := String.mk (List.replicate (-e - 1).toNat '0')
    "0." ++ stripTrailZeros (zeros ++ ds)

/-- Scientific-notation rendering of a six-digit block `m` with decimal
exponent `e`, trailing zeros stripped, exponent printed with sign and at
least two digits. -/
def fmtSci (m : ℕ) (e : ℤ) : String :=
  let ds := natDigits m
  let head := String.mk (ds.toList.take 1)
  let tail := stripTrailZeros (String.mk (ds.toList.drop 1))
  let mant := if tail = "" then head else head ++ "." ++ tail
  let eabs := e.natAbs
  let edig := if eabs < 10 then "0" ++ natDigits eabs else natDigits eabs
  mant ++ "e" ++ (if e < 0 then "-" else "+") ++ edig

/-- Default `std::ostream` rendering of a `double` (precision 6, `%g`-style),
on the exact rational model of the value. -/
def ostreamDouble (q : ℚ) : String :=
  if q = 0 then "0"
  else
    let p := sixSig |q|
    let body := if -4 ≤ p.2 ∧ p.2 < 6 then fmtFixed p.1 p.2 else fmtSci p.1 p.2
    if q < 0 then "-" ++ body else body

/-- The one CSV line `saveWaypointToCSV` writes for `pose`:
`file << pose.position.x << "," << pose.position.y << "," << yaw << "\n"`. -/
def csvLine (at2 : ℚ → ℚ → ℚ) (pose : Pose) : String :=
  ostreamDouble pose.position_x ++ "," ++ ostreamDouble pose.position_y ++ ","
    ++ ostreamDouble (yawOfPose at2 pose) ++ "\n"

/-- The `ROS_ERROR` message printed when the CSV file cannot be opened. -/
def csvOpenErrorMsg : String := "CSVファイルを開けませんでした"

/-- `WaypointMaker::saveWaypointToCSV`: if the file opens (`fileOk`), compute
the yaw and append one line; otherwise log an error.  Returns the appended
lines and the logged error messages.  The function is total: no exception
escapes to the caller. -/
def saveWaypointToCSV (at2 : ℚ → ℚ → ℚ) (fileOk : Bool) (pose : Pose) :
    List String × List String :=
  if fileOk then ([csvLine at2 pose], []) else ([], [csvOpenErrorMsg])

/-- `WaypointMaker::createArrowMarker`. -/
def createArrowMarker (id : ℤ) (pose : Pose) : Marker :=
  { frame_id := "map"
    ns := "waypoints"
    id := id
    mtype := ARROW
    action := ADD
    pose := pose
    scale_x := 0.3
    scale_y := 0.1
    scale_z := 0.0
    color_r := 1.0
    color_g := 0.0
    color_b := 0.0
    color_a := 1.0 }

/-- `WaypointMaker::joyCallback`: sets `save_waypoint_` when
`joy_msg->buttons[2] == 1`, then builds a twist from `axes[3]` and `axes[0]`
and publishes it (the returned `Twist` is the single published message). -/
def joyCallback (joy_msg : Joy) (s : NodeState) : NodeState × Twist :=
  ( if joy_msg.buttons.getD 2 0 = 1 then { s with save_waypoint_ := true } else s
  , { linear_x := joy_msg.axes.getD 3 0
      linear_y := 0
      linear_z := 0
      angular_x := 0
      angular_y := 0
      angular_z := joy_msg.axes.getD 0 0 } )

/-- `WaypointMaker::amclPoseCallback`: replaces `current_pose_` wholesale. -/
def amclPoseCallback (msg : Pose) (s : NodeState) : NodeState :=
  { s with current_pose_ := msg }

/-- An input event delivered to the node by the ROS middleware. -/
inductive RosEvent where
  | joy (msg : Joy)
  | amclPose (msg : Pose)
deriving DecidableEq

/-- Dispatch of one queued callback; returns the new state and the twists
published during the callback. -/
def processEvent (s : NodeState) (e : RosEvent) : NodeState × List Twist :=
  match e with
  | .joy m => ((joyCallback m s).1, [(joyCallback m s).2])
  | .amclPose p => (amclPoseCallback p s, [])

/-- `ros::spinOnce()`: drains the pending callbacks in order, single-threaded. -/
def spinOnce (s : NodeState) : List RosEvent → NodeState × List Twist
  | [] => (s, [])
  | e :: rest =>
      ((spinOnce (processEvent s e).1 rest).1,
        (processEvent s e).2 ++ (spinOnce (processEvent s e).1 rest).2)

/-- The environment of one iteration of the `run` loop: the callbacks drained
by `ros::spinOnce()` and whether opening the CSV file would succeed in this
iteration. -/
structure CycleInput where
  events : List RosEvent
  fileOk : Bool

/-- Everything one iteration of the `run` loop emits. -/
structure CycleOut where
  twists : List Twist
  csvAppends : List String
  markers : List Marker
  errors : List String
deriving DecidableEq

/-- One iteration of the `while (ros::ok())` body in `WaypointMaker::run`:
drain callbacks, and if `save_waypoint_` is set, call `saveWaypointToCSV` on
`current_pose_`, publish `createArrowMarker(waypoint_id_++, current_pose_)`,
and reset the flag. -/
def runCycle (at2 : ℚ → ℚ → ℚ) (s : NodeState) (c : CycleInput) :
    NodeState × CycleOut :=
  let s1 := (spinOnce s c.events).1
  let twists := (spinOnce s c.events).2
  if s1.save_waypoint_ then
    let saved := saveWaypointToCSV at2 c.fileOk s1.current_pose_
    let marker := createArrowMarker s1.waypoint_id_ s1.current_pose_
    ( { s1 with save_waypoint_ := false, waypoint_id_ := s1.waypoint_id_ + 1 }
    , { twists := twists, csvAppends := saved.1, markers := [marker], errors := saved.2 } )
  else
    (s1, { twists := twists, csvAppends := [], markers := [], errors := [] })

/-- `WaypointMaker::run`, unrolled over a finite schedule of loop iterations
(the process runs until externally terminated; `rate.sleep()` has no
observable effect in the model). -/
def run (at2 : ℚ → ℚ → ℚ) (s : NodeState) : List CycleInput → NodeState × List CycleOut
  | [] => (s, [])
  | c :: rest =>
      ((run at2 (runCycle at2 s c).1 rest).1,
        (runCycle at2 s c).2 :: (run at2 (runCycle at2 s c).1 rest).2)

/-- All CSV lines appended during a run. -/
def allCsv (outs : List CycleOut) : List String := (outs.map CycleOut.csvAppends).flatten

/-- All markers published during a run. -/
def allMarkers (outs : List CycleOut) : List Marker := (outs.map CycleOut.markers).flatten

/-- Whether an event is a Joy message with `buttons[2] == 1` (the condition
under which `joyCallback` sets the save flag). -/
def savePress : RosEvent → Bool
  | .joy m => m.buttons.getD 2 0 == 1
  | .amclPose _ => false

/-- Modelled from the spec: the number of not-pressed→pressed transitions of
button 2 over a stream of Joy messages, starting from a given previous
button state.  (The spec claims saves happen only on such rising edges;
the source has no such edge detection, this definition exists to compare
the two.) -/
def risingEdgeCount : Bool → List Joy → ℕ
  | _, [] => 0
  | prev, m :: rest =>
      (if prev = false ∧ (m.buttons.getD 2 0 == 1) = true then 1 else 0)
        + risingEdgeCount (m.buttons.getD 2 0 == 1) rest

/-- Modelled from the spec: the yaw formula as the spec writes it,
`yaw = atan2(2·w·z, 1 − 2·z²)`. -/
def specYawFormula (at2 : ℚ → ℚ → ℚ) (z w : ℚ) : ℚ :=
  at2 (2 * w * z) (1 - 2 * z ^ 2)

/-!
### Concrete fixtures used by witnesses and counterexamples
-/

/-- A stand-in for `atan2` that is exact at the argument pair `(0, 1)`
produced by the identity quaternion: `atan2 0 1 = 0`. -/
def zeroAtan2 : ℚ → ℚ → ℚ := fun _ _ => 0

/-- A Joy message with button 2 pressed. -/
def pressJoy : Joy := { buttons := [0, 0, 1], axes := [0, 0, 0, 0] }

/-- A Joy message with button 2 released and distinctive axis values. -/
def axesJoy : Joy := { buttons := [0, 0, 0], axes := [5, 0, 0, 8] }

/-- One loop iteration that drains a single button-2 press and can open the
CSV file. -/
def pressCycle : CycleInput := { events := [RosEvent.joy pressJoy], fileOk := true }

/-- One loop iteration that drains a single button-2 press while the CSV file
cannot be opened. -/
def pressCycleNoFile : CycleInput := { events := [RosEvent.joy pressJoy], fileOk := false }

/-- One loop iteration that drains two button-2 presses. -/
def doublePressCycle : CycleInput :=
  { events := [RosEvent.joy pressJoy, RosEvent.joy pressJoy], fileOk := true }

/-- The fixed shape every published marker is claimed to have: an arrow in
frame `"map"`, namespace `"waypoints"`, scale `(0.3, 0.1, 0.0)` and solid
red color `(r, g, b, a) = (1, 0, 0, 1)`. -/
def markerWellFormed (m : Marker) : Prop :=
  m.frame_id = "map" ∧ m.ns = "waypoints" ∧ m.mtype = ARROW ∧ m.action = ADD
  ∧ m.scale_x = 0.3 ∧ m.scale_y = 0.1 ∧ m.scale_z = 0.0
  ∧ m.color_r = 1.0 ∧ m.color_g = 0.0 ∧ m.color_b = 0.0 ∧ m.color_a = 1.0

/-!
### Helper lemmas
-/

theorem ostreamDouble_zero : ostreamDouble 0 = "0" := by with_unfolding_all rfl

theorem ostreamDouble_one : ostreamDouble 1 = "1" := by with_unfolding_all rfl

theorem ostreamDouble_two : ostreamDouble 2 = "2" := by with_unfolding_all rfl

theorem processEvent_waypoint_id (s : NodeState) (e : RosEvent) :
    (processEvent s e).1.waypoint_id_ = s.waypoint_id_ := by
  cases e with
  | joy m =>
      show (joyCallback m s).1.waypoint_id_ = s.waypoint_id_
      unfold joyCallback
      by_cases h : m.buttons.getD 2 0 = 1
      · rw [if_pos h]
      · rw [if_neg h]
  | amclPose p => rfl

theorem processEvent_pose_of_joy (s : NodeState) (m : Joy) :
    (processEvent s (.joy m)).1.current_pose_ = s.current_pose_ := by
  show (joyCallback m s).1.current_pose_ = s.current_pose_
  unfold joyCallback
  by_cases h : m.buttons.getD 2 0 = 1
  · rw [if_pos h]
  · rw [if_neg h]

theorem processEvent_flag (s : NodeState) (e : RosEvent) :
    (processEvent s e).1.save_waypoint_ = (s.save_waypoint_ || savePress e) := by
  cases e with
  | joy m =>
      have hs : savePress (.joy m) = (m.buttons.getD 2 0 == 1) := rfl
      show (joyCallback m s).1.save_waypoint_ = (s.save_waypoint_ || savePress (.joy m))
      rw [hs]
      unfold joyCallback
      by_cases h : m.buttons.getD 2 0 = 1
      · rw [if_pos h, h]
        simp
      · rw [if_neg h]
        have hb : (m.buttons.getD 2 0 == 1) = false := by simpa using h
        rw [hb, Bool.or_false]
  | amclPose p =>
      have hs : savePress (RosEvent.amclPose p) = false := rfl
      show s.save_waypoint_ = (s.save_waypoint_ || savePress (.amclPose p))
      rw [hs, Bool.or_false]

theorem spinOnce_waypoint_id (evs : List RosEvent) (s : NodeState) :
    (spinOnce s evs).1.waypoint_id_ = s.waypoint_id_ := by
  induction evs generalizing s with
  | nil => rfl
  | cons e rest ih => rw [spinOnce, ih, processEvent_waypoint_id]

theorem spinOnce_flag (evs : List RosEvent) (s : NodeState) :
    (spinOnce s evs).1.save_waypoint_ = (s.save_waypoint_ || evs.any savePress) := by
  induction evs generalizing s with
  | nil => simp [spinOnce]
  | cons e rest ih =>
      rw [spinOnce, ih, processEvent_flag, List.any_cons, Bool.or_assoc]

theorem spinOnce_pose_of_no_pose_event (evs : List RosEvent) (s : NodeState)
    (h : ∀ p, RosEvent.amclPose p ∉ evs) :
    (spinOnce s evs).1.current_pose_ = s.current_pose_ := by
  induction evs generalizing s with
  | nil => rfl
  | cons e rest ih =>
      rw [spinOnce]
      have hrest : ∀ p, RosEvent.amclPose p ∉ rest := by
        intro p hp
        exact h p (List.mem_cons_of_mem _ hp)
      rw [ih _ hrest]
      cases e with
      | joy m => exact processEvent_pose_of_joy s m
      | amclPose p => exact absurd (List.mem_cons_self _ _) (h p)

theorem run_length (at2 : ℚ → ℚ → ℚ) (cs : List CycleInput) (s : NodeState) :
    (run at2 s cs).2.length = cs.length := by
  induction cs generalizing s with
  | nil => rfl
  | cons c rest ih => rw [run, List.length_cons, List.length_cons, ih]

theorem runCycle_save (at2 : ℚ → ℚ → ℚ) (s : NodeState) (c : CycleInput)
    (hflag : (spinOnce s c.events).1.save_waypoint_ = true) :
    runCycle at2 s c =
      ( { (spinOnce s c.events).1 with
            save_waypoint_ := false
            waypoint_id_ := (spinOnce s c.events).1.waypoint_id_ + 1 }
      , { twists := (spinOnce s c.events).2
          csvAppends := (saveWaypointToCSV at2 c.fileOk (spinOnce s c.events).1.current_pose_).1
          markers := [createArrowMarker (spinOnce s c.events).1.waypoint_id_
            (spinOnce s c.events).1.current_pose_]
          errors := (saveWaypointToCSV at2 c.fileOk (spinOnce s c.events).1.current_pose_).2 } ) := by
  simp only [runCycle]
  rw [if_pos hflag]

theorem runCycle_nosave (at2 : ℚ → ℚ → ℚ) (s : NodeState) (c : CycleInput)
    (hflag : (spinOnce s c.events).1.save_waypoint_ = false) :
    runCycle at2 s c =
      ( (spinOnce s c.events).1
      , { twists := (spinOnce s c.events).2, csvAppends := [], markers := [], errors := [] } ) := by
  simp only [runCycle]
  rw [if_neg (by rw [hflag]; exact Bool.false_ne_true)]

/-- **C2.** For every quaternion with components `z` and `w` (and any `atan2`
implementation), the yaw passed to the CSV writer is exactly the planar
formula `atan2(2·w·z, 1 − 2·z²)` of the spec, and the written line carries
that value. -/
theorem saveWaypointToCSV_writes_planar_yaw_formula
    (at2 : ℚ → ℚ → ℚ) (x y z w : ℚ) :
    yawOfPose at2 { position_x := x, position_y := y, orientation_z := z, orientation_w := w }
        = specYawFormula at2 z w
    ∧ saveWaypointToCSV at2 true
          { position_x := x, position_y := y, orientation_z := z, orientation_w := w }
        = ([ostreamDouble x ++ "," ++ ostreamDouble y ++ ","
              ++ ostreamDouble (specYawFormula at2 z w) ++ "\n"], []) := by
  have h1 : 2 * (w * z) = 2 * w * z := by ring
  have h2 : 1 - 2 * (z * z) = 1 - 2 * z ^ 2 := by ring
  have hy : yawOfPose at2
      { position_x := x, position_y := y, orientation_z := z, orientation_w := w }
      = specYawFormula at2 z w := by
    unfold yawOfPose specYawFormula
    rw [h1, h2]
  refine ⟨hy, ?_⟩
  unfold saveWaypointToCSV
  rw [if_pos rfl]
  unfold csvLine
  rw [hy]

/-- **C1.** In every processing cycle in which the save flag is set (and the
CSV file opens), exactly one line — built from the current pose — is
appended, and `waypoint_id_` is incremented by exactly one. -/
theorem save_cycle_appends_one_line_and_increments_id
    (at2 : ℚ → ℚ → ℚ) (s : NodeState) (c : CycleInput)
    (hflag : (spinOnce s c.events).1.save_waypoint_ = true)
    (hfile : c.fileOk = true) :
    (runCycle at2 s c).2.csvAppends = [csvLine at2 (spinOnce s c.events).1.current_pose_]
    ∧ (runCycle at2 s c).1.waypoint_id_ = s.waypoint_id_ + 1 := by
  rw [runCycle_save at2 s c hflag]
  constructor
  · show (saveWaypointToCSV at2 c.fileOk (spinOnce s c.events).1.current_pose_).1 = _
    rw [hfile]
    rfl
  · show (spinOnce s c.events).1.waypoint_id_ + 1 = s.waypoint_id_ + 1
    rw [spinOnce_waypoint_id]

/-- Witness for C1 at a concrete input: one press drained, file opens. -/
theorem save_cycle_appends_one_line_and_increments_id_witness :
    (runCycle zeroAtan2 initState pressCycle).2.csvAppends
        = [csvLine zeroAtan2 (spinOnce initState pressCycle.events).1.current_pose_]
    ∧ (runCycle zeroAtan2 initState pressCycle).1.waypoint_id_ = initState.waypoint_id_ + 1 :=
  save_cycle_appends_one_line_and_increments_id zeroAtan2 initState pressCycle
    (by decide) rfl

/-- **C3.** Every Joy message produces exactly one published twist, with
`linear.x = axes[3]` and `angular.z = axes[0]`, and the twist depends only on
the axes — not on the buttons, the receiving state, or the save flag. -/
theorem joyCallback_velocity_passthrough (m m2 : Joy) (s s2 : NodeState)
    (h3 : 3 < m.axes.length) (h0 : 0 < m.axes.length) (hax : m2.axes = m.axes) :
    (joyCallback m s).2.linear_x = m.axes.get ⟨3, h3⟩
    ∧ (joyCallback m s).2.angular_z = m.axes.get ⟨0, h0⟩
    ∧ (processEvent s (.joy m)).2.length = 1
    ∧ (joyCallback m2 s2).2 = (joyCallback m s).2 := by
  refine ⟨?_, ?_, rfl, ?_⟩
  · show m.axes.getD 3 0 = m.axes.get ⟨3, h3⟩
    rw [List.getD_eq_getElem?_getD, List.getElem?_eq_getElem h3, List.get_eq_getElem]
    rfl
  · show m.axes.getD 0 0 = m.axes.get ⟨0, h0⟩
    rw [List.getD_eq_getElem?_getD, List.getElem?_eq_getElem h0, List.get_eq_getElem]
    rfl
  · unfold joyCallback
    rw [hax]

/-- Witness for C3 at a concrete message with axes `[5, 0, 0, 8]`. -/
theorem joyCallback_velocity_passthrough_witness :
    (joyCallback axesJoy initState).2.linear_x = axesJoy.axes.get ⟨3, by decide⟩
    ∧ (joyCallback axesJoy initState).2.angular_z = axesJoy.axes.get ⟨0, by decide⟩
    ∧ (processEvent initState (.joy axesJoy)).2.length = 1
    ∧ (joyCallback axesJoy { initState with save_waypoint_ := true }).2
        = (joyCallback axesJoy initState).2 :=
  joyCallback_velocity_passthrough axesJoy axesJoy initState
    { initState with save_waypoint_ := true } (by decide) (by decide) rfl

/-- **C4.** When the CSV file cannot be opened during a save, no line is
appended, the error is logged, the flag is still cleared the same cycle, and
the loop keeps processing every remaining cycle (the failure is not
propagated). -/
theorem file_open_failure_logged_and_dropped
    (at2 : ℚ → ℚ → ℚ) (s : NodeState) (c : CycleInput)
    (hflag : (spinOnce s c.events).1.save_waypoint_ = true)
    (hfile : c.fileOk = false) :
    (runCycle at2 s c).2.csvAppends = []
    ∧ (runCycle at2 s c).2.errors = [csvOpenErrorMsg]
    ∧ (runCycle at2 s c).1.save_waypoint_ = false
    ∧ ∀ rest : List CycleInput, (run at2 s (c :: rest)).2.length = rest.length + 1 := by
  refine ⟨?_, ?_, ?_, ?_⟩
  · rw [runCycle_save at2 s c hflag]
    show (saveWaypointToCSV at2 c.fileOk (spinOnce s c.events).1.current_pose_).1 = []
    rw [hfile]
    rfl
  · rw [runCycle_save at2 s c hflag]
    show (saveWaypointToCSV at2 c.fileOk (spinOnce s c.events).1.current_pose_).2
      = [csvOpenErrorMsg]
    rw [hfile]
    rfl
  · rw [runCycle_save at2 s c hflag]
  · intro rest
    rw [run_length]
    rfl

/-- Witness for C4: one press drained while the file cannot be opened. -/
theorem file_open_failure_logged_and_dropped_witness :
    (runCycle zeroAtan2 initState pressCycleNoFile).2.csvAppends = []
    ∧ (runCycle zeroAtan2 initState pressCycleNoFile).2.errors = [csvOpenErrorMsg]
    ∧ (runCycle zeroAtan2 initState pressCycleNoFile).1.save_waypoint_ = false
    ∧ ∀ rest : List CycleInput,
        (run zeroAtan2 initState (pressCycleNoFile :: rest)).2.length = rest.length + 1 :=
  file_open_failure_logged_and_dropped zeroAtan2 initState pressCycleNoFile
    (by decide) rfl

/-- **C5.** On every save event the marker is published with the current
`waypoint_id_` and the counter is incremented, whatever the file-open
outcome: for the same drained events, the marker output with `fileOk = true`
and with `fileOk = false` is identical. -/
theorem marker_and_id_increment_unconditional
    (at2 : ℚ → ℚ → ℚ) (s : NodeState) (c : CycleInput)
    (hflag : (spinOnce s c.events).1.save_waypoint_ = true) :
    (runCycle at2 s c).2.markers
      = [createArrowMarker s.waypoint_id_ (spinOnce s c.events).1.current_pose_]
    ∧ (runCycle at2 s c).1.waypoint_id_ = s.waypoint_id_ + 1
    ∧ (runCycle at2 s { events := c.events, fileOk := true }).2.markers
      = (runCycle at2 s { events := c.events, fileOk := false }).2.markers := by
  refine ⟨?_, ?_, ?_⟩
  · rw [runCycle_save at2 s c hflag]
    show [createArrowMarker (spinOnce s c.events).1.waypoint_id_
      (spinOnce s c.events).1.current_pose_] = _
    rw [spinOnce_waypoint_id]
  · rw [runCycle_save at2 s c hflag]
    show (spinOnce s c.events).1.waypoint_id_ + 1 = s.waypoint_id_ + 1
    rw [spinOnce_waypoint_id]
  · rw [runCycle_save at2 s { events := c.events, fileOk := true } hflag,
      runCycle_save at2 s { events := c.events, fileOk := false } hflag]

/-- Witness for C5 at a concrete press cycle. -/
theorem marker_and_id_increment_unconditional_witness :
    (runCycle zeroAtan2 initState pressCycle).2.markers
      = [createArrowMarker initState.waypoint_id_
          (spinOnce initState pressCycle.events).1.current_pose_]
    ∧ (runCycle zeroAtan2 initState pressCycle).1.waypoint_id_ = initState.waypoint_id_ + 1
    ∧ (runCycle zeroAtan2 initState { events := pressCycle.events, fileOk := true }).2.markers
      = (runCycle zeroAtan2 initState { events := pressCycle.events, fileOk := false }).2.markers :=
  marker_and_id_increment_unconditional zeroAtan2 initState pressCycle (by decide)

/-- **C6.** Even when two or more qualifying presses are drained in the same
cycle, at most one save happens in that cycle: at most one line, at most one
marker, the counter grows by at most one — and setting the already-set flag
is a no-op on the state. -/
theorem at_most_one_save_per_cycle
    (at2 : ℚ → ℚ → ℚ) (s : NodeState) (c : CycleInput)
    (hpress : 2 ≤ (c.events.filter savePress).length) :
    (runCycle at2 s c).2.csvAppends.length ≤ 1
    ∧ (runCycle at2 s c).2.markers.length ≤ 1
    ∧ (runCycle at2 s c).1.waypoint_id_ ≤ s.waypoint_id_ + 1
    ∧ ∀ (m : Joy) (t : NodeState), t.save_waypoint_ = true → (joyCallback m t).1 = t := by
  have hnoop : ∀ (m : Joy) (t : NodeState),
      t.save_waypoint_ = true → (joyCallback m t).1 = t := by
    intro m t ht
    unfold joyCallback
    by_cases h : m.buttons.getD 2 0 = 1
    · rw [if_pos h, ← ht]
    · rw [if_neg h]
  by_cases hflag : (spinOnce s c.events).1.save_waypoint_ = true
  · rw [runCycle_save at2 s c hflag]
    refine ⟨?_, ?_, ?_, hnoop⟩
    · show (saveWaypointToCSV at2 c.fileOk (spinOnce s c.events).1.current_pose_).1.length ≤ 1
      unfold saveWaypointToCSV
      cases c.fileOk
      · rw [if_neg Bool.false_ne_true]
        exact Nat.zero_le 1
      · rw [if_pos rfl]
        exact Nat.le_refl 1
    · exact Nat.le_refl 1
    · show (spinOnce s c.events).1.waypoint_id_ + 1 ≤ s.waypoint_id_ + 1
      rw [spinOnce_waypoint_id]
  · have hflag2 : (spinOnce s c.events).1.save_waypoint_ = false :=
      Bool.eq_false_iff.mpr hflag
    rw [runCycle_nosave at2 s c hflag2]
    refine ⟨Nat.zero_le 1, Nat.zero_le 1, ?_, hnoop⟩
    show (spinOnce s c.events).1.waypoint_id_ ≤ s.waypoint_id_ + 1
    rw [spinOnce_waypoint_id]
    omega

/-- Witness for C6: two presses drained in one cycle. -/
theorem at_most_one_save_per_cycle_witness :
    (runCycle zeroAtan2 initState doublePressCycle).2.csvAppends.length ≤ 1
    ∧ (runCycle zeroAtan2 initState doublePressCycle).2.markers.length ≤ 1
    ∧ (runCycle zeroAtan2 initState doublePressCycle).1.waypoint_id_
        ≤ initState.waypoint_id_ + 1
    ∧ ∀ (m : Joy) (t : NodeState), t.save_waypoint_ = true → (joyCallback m t).1 = t :=
  at_most_one_save_per_cycle zeroAtan2 initState doublePressCycle (by decide)

/-- **C7, counterexample.** Saving is not restricted to rising edges of
button 2: holding the button across two cycles (each draining one pressed
Joy message, so the stream `[pressJoy, pressJoy]` has exactly one
not-pressed→pressed transition) appends one CSV line in *each* cycle and
advances the id counter to 2.  `zeroAtan2` agrees with the C `atan2` at the
argument pair `(0, 1)` these saves produce. -/
theorem held_button_saves_every_cycle :
    allCsv (run zeroAtan2 initState [pressCycle, pressCycle]).2 = ["0,0,0\n", "0,0,0\n"]
    ∧ (run zeroAtan2 initState [pressCycle, pressCycle]).1.waypoint_id_ = 2
    ∧ risingEdgeCount false [pressJoy, pressJoy] = 1 := by
  with_unfolding_all decide

/-- **C7 as amended.** Saving is level-triggered, not edge-triggered: from an
idle state, a cycle (whose file opens) appends a line exactly when some
drained Joy message has `buttons[2] == 1`, whether or not the button was
already pressed before. -/
theorem save_is_level_triggered
    (at2 : ℚ → ℚ → ℚ) (s : NodeState) (c : CycleInput)
    (hs : s.save_waypoint_ = false) (hf : c.fileOk = true) :
    (runCycle at2 s c).2.csvAppends.length = 1 ↔ c.events.any savePress = true := by
  have hflag := spinOnce_flag c.events s
  rw [hs, Bool.false_or] at hflag
  cases hany : c.events.any savePress
  · rw [hany] at hflag
    rw [runCycle_nosave at2 s c hflag]
    simp
  · rw [hany] at hflag
    rw [runCycle_save at2 s c hflag, hf]
    simp [saveWaypointToCSV]

/-- Witness for the amended C7 at a concrete press cycle. -/
theorem save_is_level_triggered_witness :
    (runCycle zeroAtan2 initState pressCycle).2.csvAppends.length = 1
      ↔ pressCycle.events.any savePress = true :=
  save_is_level_triggered zeroAtan2 initState pressCycle rfl rfl

/-- **C8, counterexample.** Saving pose `(x=1, y=2, z=0, w=1)` appends
`1,2,0` (a newline-terminated line in the stream's default 6-significant-
digit format), *not* the fixed six-decimal line
`1.000000,2.000000,0.000000`.  `zeroAtan2` agrees with the C `atan2` at the
produced argument pair `(0, 1)`. -/
theorem save_example_not_fixed_six_decimals :
    saveWaypointToCSV zeroAtan2 true
        { position_x := 1, position_y := 2, orientation_z := 0, orientation_w := 1 }
      = (["1,2,0\n"], [])
    ∧ "1,2,0\n" ≠ "1.000000,2.000000,0.000000\n" := by
  with_unfolding_all decide

/-- **C8 as amended.** Saving pose `(x=1.0, y=2.0, z=0.0, w=1.0)` yields
`yaw = atan2(0, 1) = 0` and appends exactly the line `1,2,0` — default C++
stream formatting (6 significant digits, trailing zeros dropped),
comma-separated, newline-terminated. -/
theorem save_example_line_default_format
    (at2 : ℚ → ℚ → ℚ) (hat : at2 0 1 = 0) :
    saveWaypointToCSV at2 true
        { position_x := 1, position_y := 2, orientation_z := 0, orientation_w := 1 }
      = (["1,2,0\n"], []) := by
  have hy : yawOfPose at2
      { position_x := 1, position_y := 2, orientation_z := 0, orientation_w := 1 } = 0 := by
    unfold yawOfPose
    norm_num
    exact hat
  unfold saveWaypointToCSV
  rw [if_pos rfl]
  unfold csvLine
  rw [hy, ostreamDouble_zero]
  show ([ostreamDouble 1 ++ "," ++ ostreamDouble 2 ++ "," ++ "0" ++ "\n"], []) = _
  rw [ostreamDouble_one, ostreamDouble_two]
  decide

/-- Witness for the amended C8, with an `atan2` stand-in that is exact at
`(0, 1)`. -/
theorem save_example_line_default_format_witness :
    saveWaypointToCSV zeroAtan2 true
        { position_x := 1, position_y := 2, orientation_z := 0, orientation_w := 1 }
      = (["1,2,0\n"], []) :=
  save_example_line_default_format zeroAtan2 rfl

theorem createArrowMarker_wellFormed (i : ℤ) (p : Pose) :
    markerWellFormed (createArrowMarker i p) :=
  ⟨rfl, rfl, rfl, rfl, rfl, rfl, rfl, rfl, rfl, rfl, rfl⟩

theorem run_markers_invariant (at2 : ℚ → ℚ → ℚ) (cs : List CycleInput) :
    ∀ s : NodeState,
      (∀ m ∈ allMarkers (run at2 s cs).2, markerWellFormed m ∧ s.waypoint_id_ ≤ m.id)
      ∧ (allMarkers (run at2 s cs).2).Pairwise (fun a b => a.id < b.id) := by
  induction cs with
  | nil =>
      intro s
      exact ⟨fun m hm => absurd hm (List.not_mem_nil m), List.Pairwise.nil⟩
  | cons c rest ih =>
      intro s
      have hsplit : allMarkers (run at2 s (c :: rest)).2
          = (runCycle at2 s c).2.markers
            ++ allMarkers (run at2 (runCycle at2 s c).1 rest).2 := rfl
      by_cases hflag : (spinOnce s c.events).1.save_waypoint_ = true
      · have hcyc := runCycle_save at2 s c hflag
        have hid : (runCycle at2 s c).1.waypoint_id_ = s.waypoint_id_ + 1 := by
          rw [hcyc]
          show (spinOnce s c.events).1.waypoint_id_ + 1 = s.waypoint_id_ + 1
          rw [spinOnce_waypoint_id]
        have hmk : (runCycle at2 s c).2.markers
            = [createArrowMarker s.waypoint_id_ (spinOnce s c.events).1.current_pose_] := by
          rw [hcyc]
          show [createArrowMarker (spinOnce s c.events).1.waypoint_id_
            (spinOnce s c.events).1.current_pose_] = _
          rw [spinOnce_waypoint_id]
        have hrest := ih (runCycle at2 s c).1
        constructor
        · intro m hm
          rw [hsplit, hmk, List.mem_append] at hm
          cases hm with
          | inl h =>
              rw [List.mem_singleton] at h
              subst h
              exact ⟨createArrowMarker_wellFormed _ _, le_refl _⟩
          | inr h =>
              refine ⟨(hrest.1 m h).1, ?_⟩
              have := (hrest.1 m h).2
              rw [hid] at this
              omega
        · rw [hsplit, hmk]
          rw [List.pairwise_append]
          refine ⟨List.pairwise_singleton _ _, hrest.2, ?_⟩
          intro a ha b hb
          rw [List.mem_singleton] at ha
          subst ha
          have := (hrest.1 b hb).2
          rw [hid] at this
          show s.waypoint_id_ < b.id
          omega
      · have hflag2 : (spinOnce s c.events).1.save_waypoint_ = false :=
          Bool.eq_false_iff.mpr hflag
        have hcyc := runCycle_nosave at2 s c hflag2
        have hid : (runCycle at2 s c).1.waypoint_id_ = s.waypoint_id_ := by
          rw [hcyc]
          show (spinOnce s c.events).1.waypoint_id_ = s.waypoint_id_
          rw [spinOnce_waypoint_id]
        have hmk : (runCycle at2 s c).2.markers = [] := by rw [hcyc]
        have hrest := ih (runCycle at2 s c).1
        constructor
        · intro m hm
          rw [hsplit, hmk, List.nil_append] at hm
          refine ⟨(hrest.1 m hm).1, ?_⟩
          have := (hrest.1 m hm).2
          rw [hid] at this
          exact this
        · rw [hsplit, hmk, List.nil_append]
          exact hrest.2

/-- **C9.** Every marker published during any run from the initial state is
an arrow in frame `"map"`, namespace `"waypoints"`, scale `(0.3, 0.1, 0.0)`,
solid red `(1, 0, 0, 1)`, and the ids of successively published markers
strictly increase. -/
theorem markers_well_formed_and_ids_strictly_increase
    (at2 : ℚ → ℚ → ℚ) (cs : List CycleInput) :
    (∀ m ∈ allMarkers (run at2 initState cs).2, markerWellFormed m)
    ∧ (allMarkers (run at2 initState cs).2).Pairwise (fun a b => a.id < b.id) := by
  have h := run_markers_invariant at2 cs initState
  exact ⟨fun m hm => (h.1 m hm).1, h.2⟩

/-- Witness for C9 on a concrete two-save run. -/
theorem markers_well_formed_and_ids_strictly_increase_witness :
    (∀ m ∈ allMarkers (run zeroAtan2 initState [pressCycle, pressCycle]).2,
        markerWellFormed m)
    ∧ (allMarkers (run zeroAtan2 initState [pressCycle, pressCycle]).2).Pairwise
        (fun a b => a.id < b.id) :=
  markers_well_formed_and_ids_strictly_increase zeroAtan2 [pressCycle, pressCycle]

/-- **C10.** Before any pose message has arrived the stored pose is
`(x, y, z, w) = (0, 0, 0, 1)`, so a save triggered in a cycle that drains no
pose message records the origin waypoint: the appended line is `0,0,0`
(yaw = atan2(0, 1) = 0). -/
theorem initial_pose_save_records_origin
    (at2 : ℚ → ℚ → ℚ) (c : CycleInput) (hat : at2 0 1 = 0)
    (hnopose : ∀ p, RosEvent.amclPose p ∉ c.events)
    (hflag : (spinOnce initState c.events).1.save_waypoint_ = true)
    (hfile : c.fileOk = true) :
    initState.current_pose_
        = { position_x := 0, position_y := 0, orientation_z := 0, orientation_w := 1 }
    ∧ (runCycle at2 initState c).2.csvAppends = ["0,0,0\n"] := by
  refine ⟨rfl, ?_⟩
  rw [runCycle_save at2 initState c hflag]
  show (saveWaypointToCSV at2 c.fileOk (spinOnce initState c.events).1.current_pose_).1 = _
  rw [hfile, spinOnce_pose_of_no_pose_event c.events initState hnopose]
  show [csvLine at2 initState.current_pose_] = ["0,0,0\n"]
  have hy : yawOfPose at2 initState.current_pose_ = 0 := by
    unfold yawOfPose initState
    norm_num
    exact hat
  unfold csvLine
  rw [hy, ostreamDouble_zero]
  show [ostreamDouble (0:ℚ) ++ "," ++ ostreamDouble (0:ℚ) ++ "," ++ "0" ++ "\n"] = _
  rw [ostreamDouble_zero]
  decide

/-- Witness for C10: a single press drained before any pose message. -/
theorem initial_pose_save_records_origin_witness :
    initState.current_pose_
        = { position_x := 0, position_y := 0, orientation_z := 0, orientation_w := 1 }
    ∧ (runCycle zeroAtan2 initState pressCycle).2.csvAppends = ["0,0,0\n"] :=
  initial_pose_save_records_origin zeroAtan2 pressCycle rfl
    (by
      intro p hp
      simp [pressCycle] at hp)
    (by decide) rfl
